import Mathlib

/-!
Shallow embedding of the 4jawaly SMS client library
(`src/4jawaly_sms/client.py` and `src/src/sms4jawaly_py/sms_gateway.py`).

The HTTP transport is abstracted as a function from the batch index and
the batch payload to a transport outcome: either a completed HTTP
response carrying a status code and a parsed JSON body, or a raised
exception described by a string (connection errors, timeouts, and
non-JSON bodies all surface as exceptions in the Python code and are
folded into the exception case).  Python runtime errors that the
aggregation loop itself can raise (`KeyError`, `IndexError`,
`ValueError` from `range` with step 0) are modelled explicitly, so
`send_sms` returns `Except PyError Aggregated`.
-/

namespace SMS4Jawaly

/-- Python runtime errors reachable in `send_sms`. -/
inductive PyError where
  /-- raised by `range(0, n, 0)` when the chunk size is 0 -/
  | valueError
  /-- raised by `result["response"]` when a failed chunk result has no
  `response` key -/
  | keyError
  /-- raised by `[...][0]` when the body's `messages` list is empty -/
  | indexError
deriving DecidableEq, Repr

/-- One entry of the `messages` array of a gateway response body: the
only field the client ever reads is `err_text`, modelled as present or
absent. -/
structure MsgEntry where
  err_text : Option String
deriving DecidableEq, Repr

/-- The parsed JSON body of a gateway response, restricted to the keys
the client reads: `messages`, `job_id` (200 bodies) and `message`
(non-200 bodies).  `none` models key absence. -/
structure ResponseBody where
  messages : Option (List MsgEntry)
  job_id : Option String
  message : Option String
deriving DecidableEq, Repr

/-- Outcome of one HTTP POST: a completed response (status code plus
parsed body), or a raised exception with its description string. -/
inductive HttpOutcome where
  | response (status : Nat) (body : ResponseBody)
  | raised (desc : String)
deriving DecidableEq, Repr

/-- The dictionary returned by `_send_chunk`: `ok` is
`{"success": True, "chunk": ..., "response": ...}` and `err` is
`{"success": False, "chunk": ..., "error": ...}` (note: no `response`
key in the `err` case). -/
inductive ChunkResult where
  | ok (chunk : List String) (response : ResponseBody)
  | err (chunk : List String) (error : String)
deriving DecidableEq, Repr

/-- The `aggregated` dictionary built by `send_sms`:  `errors` is a
Python dict from reason string to list of numbers, modelled as an
association list in insertion order. -/
structure Aggregated where
  success : Bool
  total_success : Nat
  total_failed : Nat
  job_ids : List String
  errors : List (String × List String)
deriving DecidableEq, Repr

/-- UTF-8 encoding of a string as a byte list, as produced by Python's
`str.encode()`. -/
def utf8Bytes (s : String) : List Nat :=
  ((s.data.map String.utf8EncodeChar).flatten).map UInt8.toNat

/-- The RFC 4648 base64 alphabet. -/
def b64Table : List Char :=
  "ABCDEFGHIJKLMNOPQRSTUVWXYZabcdefghijklmnopqrstuvwxyz0123456789+/".data

/-- The base64 digit for a 6-bit value. -/
def b64Digit (i : Nat) : Char := b64Table.getD i '='

/-- Standard base64 encoding of a byte list, as produced by
`base64.b64encode`. -/
def b64encode : List Nat → String
  | [] => ""
  | [a] => String.mk [b64Digit (a / 4), b64Digit (a % 4 * 16), '=', '=']
  | [a, b] =>
      String.mk [b64Digit (a / 4), b64Digit (a % 4 * 16 + b / 16),
                 b64Digit (b % 16 * 4), '=']
  | a :: b :: c :: rest =>
      String.mk [b64Digit (a / 4), b64Digit (a % 4 * 16 + b / 16),
                 b64Digit (b % 16 * 4 + c / 64), b64Digit (c % 64)] ++
        b64encode rest

/-- `SMS4JawalyClient._get_auth_token`:
`base64.b64encode(f"{api_key}:{api_secret}".encode()).decode()`. -/
def getAuthToken (api_key api_secret : String) : String :=
  b64encode (utf8Bytes (api_key ++ ":" ++ api_secret))

/-- Constructor-time state of `SMS4JawalyClient` (client.py). -/
structure SMS4JawalyClient where
  api_key : String
  api_secret : String
  sender : String
deriving DecidableEq, Repr

/-- The `base_url` set in `SMS4JawalyClient.__init__`. -/
def clientBaseUrl : String := "https://api-sms.4jawaly.com/api/v1"

/-- The `self.headers` dict built in `SMS4JawalyClient.__init__`, in
insertion order. -/
def clientHeaders (c : SMS4JawalyClient) : List (String × String) :=
  [("Accept", "application/json"),
   ("Content-Type", "application/json"),
   ("Authorization", "Basic " ++ getAuthToken c.api_key c.api_secret)]

/-- An outgoing HTTP request: target URL and header mapping.  Only the
parts relevant to the authentication claim are modelled. -/
structure HttpRequest where
  url : String
  headers : List (String × String)
deriving DecidableEq, Repr

/-- The request issued by `SMS4JawalyClient._send_chunk` (POST
`account/area/sms/send` with `self.headers`). -/
def sendChunkRequest (c : SMS4JawalyClient) : HttpRequest :=
  { url := clientBaseUrl ++ "/account/area/sms/send",
    headers := clientHeaders c }

/-- The request issued by `SMS4JawalyClient.get_balance` (GET
`account/area/me/packages` with `self.headers`). -/
def getBalanceRequest (c : SMS4JawalyClient) : HttpRequest :=
  { url := clientBaseUrl ++ "/account/area/me/packages",
    headers := clientHeaders c }

/-- The request issued by `SMS4JawalyClient.get_senders` (GET
`account/area/senders` with `self.headers`). -/
def getSendersRequest (c : SMS4JawalyClient) : HttpRequest :=
  { url := clientBaseUrl ++ "/account/area/senders",
    headers := clientHeaders c }

/-- Constructor-time state of `SMSGateway` (sms_gateway.py). -/
structure SMSGateway where
  api_key : String
  api_secret : String
  sender : String
deriving DecidableEq, Repr

/-- The `BASE_URL` class attribute of `SMSGateway`. -/
def gatewayBaseUrl : String := "https://api-sms.4jawaly.com/api/v1"

/-- The headers `SMSGateway.__init__` installs on its session via
`self._session.headers.update(...)`, in insertion order.  Note the
`Authorization` value is the raw `api_key`, not a Basic token. -/
def gatewayHeaders (g : SMSGateway) : List (String × String) :=
  [("Authorization", g.api_key),
   ("Accept", "application/json"),
   ("Content-Type", "application/json")]

/-- The request issued by `SMSGateway.send_sms` (POST `/send` with the
session headers). -/
def gatewaySendRequest (g : SMSGateway) : HttpRequest :=
  { url := gatewayBaseUrl ++ "/send", headers := gatewayHeaders g }

/-- The request issued by `SMSGateway.get_balance` (GET `/balance` with
the session headers). -/
def gatewayBalanceRequest (g : SMSGateway) : HttpRequest :=
  { url := gatewayBaseUrl ++ "/balance", headers := gatewayHeaders g }

/-- The request issued by `SMSGateway.get_sender_names` (GET `/senders`
with the session headers). -/
def gatewaySendersRequest (g : SMSGateway) : HttpRequest :=
  { url := gatewayBaseUrl ++ "/senders", headers := gatewayHeaders g }

/-- One iteration bound of the slice loop
`[numbers[i:i + chunk_size] for i in range(0, len(numbers), chunk_size)]`:
`sliceChunks numbers k fuel i` produces the slices starting at `i`,
stepping by `k`, while `i < len(numbers)`.  `fuel = numbers.length`
suffices for every positive `k` (the loop runs at most once per
element). -/
def sliceChunks (numbers : List String) (k : Nat) : Nat → Nat → List (List String)
  | 0, _ => []
  | fuel + 1, i =>
      if i < numbers.length then
        ((numbers.drop i).take k) :: sliceChunks numbers k fuel (i + k)
      else []

/-- `SMS4JawalyClient._chunk_numbers`: the Python slice comprehension
over `range(0, len(numbers), chunk_size)`.  Python's `range` raises
`ValueError` for step 0; that case is guarded where it is reachable
(in `send_sms`, only for the empty recipient list). -/
def chunk_numbers (numbers : List String) (chunk_size : Nat) : List (List String) :=
  sliceChunks numbers chunk_size numbers.length 0

/-- The chunk-size selection of `SMS4JawalyClient.send_sms` (lines
81-87): `len(numbers)` when at most 5, `len // 5 + (1 if len % 5 else 0)`
when at most 100, else 100. -/
def chunkSizeFor (n : Nat) : Nat :=
  if n ≤ 5 then n
  else if n ≤ 100 then n / 5 + (if n % 5 ≠ 0 then 1 else 0)
  else 100

/-- The single-message request payload built by `_send_chunk`:
`{"messages": [{"text": message, "numbers": numbers, "sender": sender}]}`. -/
structure MessagePayload where
  text : String
  numbers : List String
  sender : String
deriving DecidableEq, Repr

/-- `SMS4JawalyClient._send_chunk`: builds the payload, posts it
(`post` abstracts the HTTP collaborator for this call), and shapes the
result.  Status 200 yields the success record carrying the parsed
body; any other status yields the failure record whose `error` is the
body's `message` field if present, else `"HTTP Error: <status>"`; a
raised exception yields the failure record with the exception's
description. -/
def send_chunk (message : String) (numbers : List String) (sender : String)
    (post : MessagePayload → HttpOutcome) : ChunkResult :=
  match post { text := message, numbers := numbers, sender := sender } with
  | .response status body =>
      if status = 200 then .ok numbers body
      else
        .err numbers
          (match body.message with
           | some m => m
           | none => "HTTP Error: " ++ toString status)
  | .raised desc => .err numbers desc

/-- Evaluation of `result["response"].get("messages", [{}])[0]`:
a missing `messages` key defaults to `[{}]` whose first entry is the
empty dict; an empty `messages` list raises `IndexError`. -/
def messagesFirst (body : ResponseBody) : Except PyError MsgEntry :=
  match body.messages with
  | none => .ok { err_text := none }
  | some [] => .error .indexError
  | some (m :: _) => .ok m

/-- Python truthiness fallback `x or y` where `x` is
`messages[0].get("err_text")` (an optional string) and `y` the default:
`None` and the empty string are falsy. -/
def pyOr (x : Option String) (y : String) : String :=
  match x with
  | some s => if s = "" then y else s
  | none => y

/-- Update of `aggregated["errors"]` (lines 119-121): create the key's
list if absent (appending the new key in dict insertion order), then
extend it with the chunk. -/
def errorsExtend (errors : List (String × List String)) (key : String)
    (chunk : List String) : List (String × List String) :=
  if errors.any (fun p => p.1 == key) then
    errors.map (fun p => if p.1 = key then (p.1, p.2 ++ chunk) else p)
  else errors ++ [(key, chunk)]

/-- The initial `aggregated` dict of `send_sms` (lines 100-106). -/
def initialAggregated : Aggregated :=
  { success := true, total_success := 0, total_failed := 0,
    job_ids := [], errors := [] }

/-- One iteration of the aggregation loop (lines 108-121) on one chunk
result.  For a success record whose first message entry has no
`err_text` key, the chunk counts as sent and `job_id` is appended when
present; for a success record whose first message entry has an
`err_text` key, the chunk counts as failed under `err_text or "Unknown
error"`; for a failure record, `result["response"]` raises `KeyError`
because failure records carry no `response` key. -/
def aggregateStep (agg : Aggregated) (result : ChunkResult) :
    Except PyError Aggregated :=
  match result with
  | .ok chunk body =>
      match messagesFirst body with
      | .error e => .error e
      | .ok m0 =>
          match m0.err_text with
          | none =>
              .ok { agg with
                    total_success := agg.total_success + chunk.length,
                    job_ids :=
                      match body.job_id with
                      | some j => agg.job_ids ++ [j]
                      | none => agg.job_ids }
          | some s =>
              .ok { agg with
                    total_failed := agg.total_failed + chunk.length,
                    errors :=
                      errorsExtend agg.errors
                        (pyOr (some s) "Unknown error") chunk }
  | .err _chunk _error => .error .keyError

/-- The aggregation loop folded over all chunk results in submission
order (`executor.map` preserves input order). -/
def aggregateAll (agg : Aggregated) : List ChunkResult → Except PyError Aggregated
  | [] => .ok agg
  | r :: rs =>
      match aggregateStep agg r with
      | .error e => .error e
      | .ok agg1 => aggregateAll agg1 rs

/-- `SMS4JawalyClient.send_sms` on a recipient list, for a client with
default sender `sender`.  The HTTP transport is abstracted as a
function from the batch index to the outcome of that batch's POST
given its payload (`executor.map` dispatches the batches and returns
their results in submission order).  A single-string `numbers`
argument is normalized by the Python code to a one-element list before
this logic runs, so the embedding takes the list form.  When the chunk
size is 0 (exactly the empty recipient list), `range(0, 0, 0)` raises
`ValueError`. -/
def send_sms (message : String) (numbers : List String) (sender : String)
    (transport : Nat → MessagePayload → HttpOutcome) :
    Except PyError Aggregated :=
  let chunk_size := chunkSizeFor numbers.length
  if chunk_size = 0 then .error .valueError
  else
    let chunks := chunk_numbers numbers chunk_size
    let results :=
      chunks.enum.map (fun p => send_chunk message p.2 sender (transport p.1))
    match aggregateAll initialAggregated results with
    | .error e => .error e
    | .ok agg => .ok { agg with success := agg.total_failed == 0 }

/-- The `chunk` field of a chunk result (present in both the success
and the failure record). -/
def chunkOf : ChunkResult → List String
  | .ok chunk _ => chunk
  | .err chunk _ => chunk

/-- A transport on which every batch POST returns 200 with a body
carrying only a job id. -/
def okTransport : Nat → MessagePayload → HttpOutcome :=
  fun _ _ =>
    .response 200 { messages := none, job_id := some "J1", message := none }

/-- A transport on which the second batch's POST raises a connection
error and every other batch succeeds with 200. -/
def failSecondTransport : Nat → MessagePayload → HttpOutcome :=
  fun i _ =>
    if i = 1 then .raised "Connection refused"
    else .response 200 { messages := none, job_id := some "J1", message := none }

/-- A transport on which every batch POST completes with status 500
and a body without a `message` field. -/
def plain500Transport : Nat → MessagePayload → HttpOutcome :=
  fun _ _ => .response 500 { messages := none, job_id := none, message := none }

/-- A transport on which every batch POST returns 200 with a body
whose first message entry carries `err_text` `"bad"`. -/
def errTextTransport : Nat → MessagePayload → HttpOutcome :=
  fun _ _ =>
    .response 200
      { messages := some [{ err_text := some "bad" }], job_id := none,
        message := none }

/-- A transport on which every batch POST returns 200 with a body
whose first message entry carries an empty `err_text`. -/
def emptyErrTextTransport : Nat → MessagePayload → HttpOutcome :=
  fun _ _ =>
    .response 200
      { messages := some [{ err_text := some "" }], job_id := none,
        message := none }

/-- A 200 body whose first message entry carries `err_text` `"bad"`. -/
def badBody : ResponseBody :=
  { messages := some [{ err_text := some "bad" }], job_id := none,
    message := none }

/-- The aggregate produced by sending three recipients over
`okTransport`. -/
def allOkAgg : Aggregated :=
  { success := true, total_success := 3, total_failed := 0,
    job_ids := ["J1"], errors := [] }

/-- The aggregate produced by sending two recipients over
`errTextTransport`. -/
def rejectedAgg : Aggregated :=
  { success := false, total_success := 0, total_failed := 2,
    job_ids := [], errors := [("bad", ["1", "2"])] }

/-- The aggregate produced by sending one recipient over
`emptyErrTextTransport`: the batch is rejected, but grouped under
`"Unknown error"` rather than under the empty `err_text`. -/
def emptyErrTextAgg : Aggregated :=
  { success := false, total_success := 0, total_failed := 1,
    job_ids := [], errors := [("Unknown error", ["1"])] }

/-! ## Lemmas about the slice loop -/

/-- Shifting the start index of the slice loop by `k` is the same as
dropping the first `k` elements. -/
theorem sliceChunks_shift (numbers : List String) (k : Nat) :
    ∀ (fuel i : Nat),
      sliceChunks numbers k fuel (i + k) = sliceChunks (numbers.drop k) k fuel i := by
  intro fuel
  induction fuel with
  | zero => intro i; rfl
  | succ fuel ih =>
    intro i
    simp only [sliceChunks, List.length_drop]
    by_cases h : i + k < numbers.length
    · rw [if_pos h, if_pos (by omega)]
      rw [List.drop_drop, Nat.add_comm k i]
      exact congrArg _ (ih (i + k))
    · rw [if_neg h, if_neg (by omega)]

/-- Any two sufficient fuels give the same slices. -/
theorem sliceChunks_fuel (numbers : List String) (k : Nat) (hk : 0 < k) :
    ∀ (fuel1 fuel2 i : Nat), numbers.length ≤ fuel1 + i → numbers.length ≤ fuel2 + i →
      sliceChunks numbers k fuel1 i = sliceChunks numbers k fuel2 i := by
  intro fuel1
  induction fuel1 with
  | zero =>
    intro fuel2 i h1 h2
    cases fuel2 with
    | zero => rfl
    | succ fuel2 => simp only [sliceChunks]; rw [if_neg (by omega)]
  | succ fuel1 ih =>
    intro fuel2 i h1 h2
    cases fuel2 with
    | zero => simp only [sliceChunks]; rw [if_neg (by omega)]
    | succ fuel2 =>
      simp only [sliceChunks]
      by_cases h : i < numbers.length
      · rw [if_pos h, if_pos h]
        exact congrArg _ (ih fuel2 (i + k) (by omega) (by omega))
      · rw [if_neg h, if_neg h]

/-- The slice comprehension on the empty list produces no chunks. -/
theorem chunk_numbers_nil (k : Nat) : chunk_numbers [] k = [] := rfl

/-- Unfolding equation for `chunk_numbers` with a positive chunk size:
the first chunk is `take k`, the rest chunk the remainder. -/
theorem chunk_numbers_cons (numbers : List String) (k : Nat) (hk : 0 < k)
    (hne : numbers ≠ []) :
    chunk_numbers numbers k = numbers.take k :: chunk_numbers (numbers.drop k) k := by
  unfold chunk_numbers
  obtain ⟨m, hm⟩ : ∃ m, numbers.length = m + 1 := by
    cases numbers with
    | nil => exact absurd rfl hne
    | cons x xs => exact ⟨xs.length, rfl⟩
  rw [hm]
  simp only [sliceChunks]
  rw [if_pos (by omega), List.drop_zero]
  congr 1
  calc sliceChunks numbers k m (0 + k)
      = sliceChunks (numbers.drop k) k m 0 := by
        rw [show (0 + k) = (0 + k) from rfl]; exact sliceChunks_shift numbers k m 0
    _ = sliceChunks (numbers.drop k) k (numbers.drop k).length 0 := by
        apply sliceChunks_fuel _ _ hk
        · rw [List.length_drop]; omega
        · omega

/-- The chunks of `chunk_numbers` concatenate back to the input list:
no recipient is dropped, duplicated or reordered. -/
theorem chunk_numbers_flatten (k : Nat) (hk : 0 < k) :
    ∀ (numbers : List String), (chunk_numbers numbers k).flatten = numbers := by
  have main : ∀ (n : Nat) (numbers : List String), numbers.length ≤ n →
      (chunk_numbers numbers k).flatten = numbers := by
    intro n
    induction n with
    | zero =>
      intro numbers hlen
      rw [List.length_eq_zero.mp (Nat.le_zero.mp hlen)]
      rfl
    | succ n ih =>
      intro numbers hlen
      cases hne : numbers with
      | nil => rfl
      | cons x xs =>
        rw [← hne, chunk_numbers_cons numbers k hk (by rw [hne]; simp)]
        rw [List.flatten_cons, ih (numbers.drop k) (by rw [List.length_drop]; omega)]
        exact List.take_append_drop k numbers
  intro numbers
  exact main numbers.length numbers (Nat.le_refl _)

/-- Chunk shapes: every chunk is nonempty and at most `k` long, and
every chunk except possibly the last has length exactly `k`. -/
theorem chunk_numbers_shapes (k : Nat) (hk : 0 < k) :
    ∀ (numbers : List String),
      (∀ c ∈ chunk_numbers numbers k, 0 < c.length ∧ c.length ≤ k) ∧
      (∀ c ∈ (chunk_numbers numbers k).dropLast, c.length = k) := by
  have main : ∀ (n : Nat) (numbers : List String), numbers.length ≤ n →
      (∀ c ∈ chunk_numbers numbers k, 0 < c.length ∧ c.length ≤ k) ∧
      (∀ c ∈ (chunk_numbers numbers k).dropLast, c.length = k) := by
    intro n
    induction n with
    | zero =>
      intro numbers hlen
      rw [List.length_eq_zero.mp (Nat.le_zero.mp hlen)]
      exact ⟨fun c hc => absurd hc (by simp [chunk_numbers_nil]),
             fun c hc => absurd hc (by simp [chunk_numbers_nil])⟩
    | succ n ih =>
      intro numbers hlen
      cases hne : numbers with
      | nil =>
        exact ⟨fun c hc => absurd hc (by simp [chunk_numbers_nil]),
               fun c hc => absurd hc (by simp [chunk_numbers_nil])⟩
      | cons x xs =>
        rw [← hne]
        have hnn : numbers ≠ [] := by rw [hne]; simp
        have hlen1 : 0 < numbers.length := by
          rw [hne]; simp
        have hdroplen : (numbers.drop k).length ≤ n := by
          rw [List.length_drop]; omega
        obtain ⟨ihmem, ihlast⟩ := ih (numbers.drop k) hdroplen
        rw [chunk_numbers_cons numbers k hk hnn]
        constructor
        · intro c hc
          rcases List.mem_cons.mp hc with hc | hc
          · subst hc
            rw [List.length_take]
            omega
          · exact ihmem c hc
        · intro c hc
          by_cases hrest : chunk_numbers (numbers.drop k) k = []
          · rw [hrest] at hc
            simp at hc
          · rw [List.dropLast_cons_of_ne_nil hrest] at hc
            rcases List.mem_cons.mp hc with hc | hc
            · subst hc
              have hdropne : numbers.drop k ≠ [] := by
                intro hemp
                rw [hemp, chunk_numbers_nil] at hrest
                exact hrest rfl
              have : 0 < (numbers.drop k).length := List.length_pos.mpr hdropne
              rw [List.length_take]
              rw [List.length_drop] at this
              omega
            · exact ihlast c hc
  intro numbers
  exact main numbers.length numbers (Nat.le_refl _)

/-! ## Lemmas about aggregation -/

/-- `_send_chunk` always reports the chunk it was given, whatever the
transport outcome. -/
theorem chunkOf_send_chunk (message : String) (numbers : List String)
    (sender : String) (post : MessagePayload → HttpOutcome) :
    chunkOf (send_chunk message numbers sender post) = numbers := by
  unfold send_chunk
  cases post { text := message, numbers := numbers, sender := sender } with
  | response status body =>
    by_cases h : status = 200 <;> simp [h, chunkOf]
  | raised desc => rfl

/-- One aggregation iteration that completes without raising adds the
chunk's length to exactly one of the two counters. -/
theorem aggregateStep_counts (agg agg1 : Aggregated) (r : ChunkResult)
    (h : aggregateStep agg r = Except.ok agg1) :
    agg1.total_success + agg1.total_failed =
      agg.total_success + agg.total_failed + (chunkOf r).length := by
  cases r with
  | ok chunk body =>
    simp only [aggregateStep] at h
    cases hm : messagesFirst body with
    | error e => rw [hm] at h; exact absurd h (by simp)
    | ok m0 =>
      rw [hm] at h
      dsimp only at h
      cases he : m0.err_text with
      | none =>
        rw [he] at h
        injection h with h
        rw [← h]
        simp [chunkOf]
        omega
      | some s =>
        rw [he] at h
        injection h with h
        rw [← h]
        simp [chunkOf]
        omega
  | err chunk e =>
    exact absurd h (by simp [aggregateStep])

/-- The aggregation loop that completes without raising accounts each
chunk's length exactly once across the two counters. -/
theorem aggregateAll_counts :
    ∀ (rs : List ChunkResult) (agg agg1 : Aggregated),
      aggregateAll agg rs = Except.ok agg1 →
      agg1.total_success + agg1.total_failed =
        agg.total_success + agg.total_failed +
          (rs.map (fun r => (chunkOf r).length)).sum := by
  intro rs
  induction rs with
  | nil =>
    intro agg agg1 h
    injection h with h
    rw [h]
    simp
  | cons r rs ih =>
    intro agg agg1 h
    unfold aggregateAll at h
    cases hs : aggregateStep agg r with
    | error e => rw [hs] at h; exact absurd h (by simp)
    | ok agg2 =>
      rw [hs] at h
      have h1 := ih agg2 agg1 h
      have h2 := aggregateStep_counts agg agg2 r hs
      simp only [List.map_cons, List.sum_cons]
      omega

/-- Mapping the dispatch over the enumerated chunks and then reading
back each result's chunk length recovers the chunk lengths. -/
theorem enumFrom_dispatch_lengths (message sender : String)
    (transport : Nat → MessagePayload → HttpOutcome) :
    ∀ (chunks : List (List String)) (start : Nat),
      (((List.enumFrom start chunks).map
          (fun p => send_chunk message p.2 sender (transport p.1))).map
        (fun r => (chunkOf r).length)).sum =
      (chunks.map List.length).sum := by
  intro chunks
  induction chunks with
  | nil => intro start; rfl
  | cons c cs ih =>
    intro start
    simp only [List.enumFrom, List.map_cons, List.sum_cons,
      chunkOf_send_chunk]
    rw [ih (start + 1)]

/-- Inversion of a `send_sms` call that returned a result: the chunk
size was positive, the aggregation loop completed, and the returned
record is the loop's result with the final `success` assignment. -/
theorem send_sms_ok_inv (message : String) (numbers : List String)
    (sender : String) (transport : Nat → MessagePayload → HttpOutcome)
    (agg : Aggregated)
    (h : send_sms message numbers sender transport = Except.ok agg) :
    chunkSizeFor numbers.length ≠ 0 ∧
    ∃ agg0,
      aggregateAll initialAggregated
          ((chunk_numbers numbers (chunkSizeFor numbers.length)).enum.map
            (fun p => send_chunk message p.2 sender (transport p.1))) =
        Except.ok agg0 ∧
      agg = { agg0 with success := agg0.total_failed == 0 } := by
  simp only [send_sms] at h
  by_cases hcs : chunkSizeFor numbers.length = 0
  · rw [if_pos hcs] at h
    exact absurd h (by simp)
  · rw [if_neg hcs] at h
    refine ⟨hcs, ?_⟩
    cases ha : aggregateAll initialAggregated
        ((chunk_numbers numbers (chunkSizeFor numbers.length)).enum.map
          (fun p => send_chunk message p.2 sender (transport p.1))) with
    | error e => rw [ha] at h; exact absurd h (by simp)
    | ok agg0 =>
      rw [ha] at h
      dsimp only at h
      injection h with h
      exact ⟨agg0, rfl, h.symm⟩

/-! ## Claim theorems -/

/-- Claim C1 (code bug): `_send_chunk` does fold a transport failure
into a failure record carrying the error's description, but the
aggregation loop of `send_sms` then evaluates `result["response"]` on
that record, which has no `response` key, so the whole call raises
`KeyError` instead of returning normally with the failed numbers in
the errors mapping — here with three batches of which only the second
fails at transport level. -/
theorem C1_transport_failure_raises :
    send_chunk "hello" ["3", "4"] "SND"
        (fun _ => HttpOutcome.raised "Connection refused") =
      ChunkResult.err ["3", "4"] "Connection refused" ∧
    send_sms "hello" ["1", "2", "3", "4", "5", "6"] "SND" failSecondTransport =
      Except.error PyError.keyError :=
  ⟨rfl, rfl⟩

/-- Claim C2 (code bug): for the empty recipient list the chosen chunk
size is `len(numbers) = 0`, and `range(0, 0, 0)` raises `ValueError`,
so `send_sms` raises instead of returning the successful empty
aggregate. -/
theorem C2_empty_recipients_raise (message sender : String)
    (transport : Nat → MessagePayload → HttpOutcome) :
    send_sms message [] sender transport = Except.error PyError.valueError :=
  rfl

/-- Claim C3 (counterexample): in the `SMSGateway` variant the
`Authorization` header is the raw api key, not
`Basic base64(apiKey:apiSecret)` — here with credentials `k`/`s`,
where the Basic token would be `Basic azpz`. -/
theorem C3_counterexample :
    List.lookup "Authorization"
        (gatewaySendRequest { api_key := "k", api_secret := "s", sender := "SND" }).headers =
      some "k" ∧
    "k" ≠ "Basic " ++ getAuthToken "k" "s" :=
  ⟨rfl, by decide⟩

/-- Claim C3 (amended): every request of the `SMS4JawalyClient`
variant (bulk send, balance, senders) carries
`Authorization: Basic base64(apiKey:apiSecret)` together with
`Accept: application/json` and `Content-Type: application/json`, while
every request of the `SMSGateway` variant carries the raw api key as
`Authorization` together with the same `Accept` and `Content-Type`. -/
theorem C3_amended_headers (api_key api_secret sender : String) :
    clientHeaders { api_key := api_key, api_secret := api_secret, sender := sender } =
      [("Accept", "application/json"),
       ("Content-Type", "application/json"),
       ("Authorization", "Basic " ++ getAuthToken api_key api_secret)] ∧
    (sendChunkRequest { api_key := api_key, api_secret := api_secret, sender := sender }).headers =
      clientHeaders { api_key := api_key, api_secret := api_secret, sender := sender } ∧
    (getBalanceRequest { api_key := api_key, api_secret := api_secret, sender := sender }).headers =
      clientHeaders { api_key := api_key, api_secret := api_secret, sender := sender } ∧
    (getSendersRequest { api_key := api_key, api_secret := api_secret, sender := sender }).headers =
      clientHeaders { api_key := api_key, api_secret := api_secret, sender := sender } ∧
    gatewayHeaders { api_key := api_key, api_secret := api_secret, sender := sender } =
      [("Authorization", api_key),
       ("Accept", "application/json"),
       ("Content-Type", "application/json")] ∧
    (gatewaySendRequest { api_key := api_key, api_secret := api_secret, sender := sender }).headers =
      gatewayHeaders { api_key := api_key, api_secret := api_secret, sender := sender } ∧
    (gatewayBalanceRequest { api_key := api_key, api_secret := api_secret, sender := sender }).headers =
      gatewayHeaders { api_key := api_key, api_secret := api_secret, sender := sender } ∧
    (gatewaySendersRequest { api_key := api_key, api_secret := api_secret, sender := sender }).headers =
      gatewayHeaders { api_key := api_key, api_secret := api_secret, sender := sender } :=
  ⟨rfl, rfl, rfl, rfl, rfl, rfl, rfl, rfl⟩

set_option maxRecDepth 10000 in
/-- Claim C4: the chunk size chosen by `send_sms` is `n` for `n ≤ 5`,
`ceil(n/5)` for `5 < n ≤ 100` and `100` for `n > 100`, and consecutive
slicing yields the spec's concrete batch-size sequences for
`n = 3, 5, 7, 23, 250`. -/
theorem C4_batch_size_policy :
    (∀ n : Nat, chunkSizeFor n =
        if n ≤ 5 then n else if n ≤ 100 then (n + 4) / 5 else 100) ∧
    (chunk_numbers (List.replicate 3 "x") (chunkSizeFor 3)).map List.length =
      [3] ∧
    (chunk_numbers (List.replicate 5 "x") (chunkSizeFor 5)).map List.length =
      [5] ∧
    (chunk_numbers (List.replicate 7 "x") (chunkSizeFor 7)).map List.length =
      [2, 2, 2, 1] ∧
    (chunk_numbers (List.replicate 23 "x") (chunkSizeFor 23)).map List.length =
      [5, 5, 5, 5, 3] ∧
    (chunk_numbers (List.replicate 250 "x") (chunkSizeFor 250)).map List.length =
      [100, 100, 50] := by
  refine ⟨?_, by decide, by decide, by decide, by decide, by decide⟩
  intro n
  unfold chunkSizeFor
  by_cases h1 : n ≤ 5
  · simp [h1]
  · by_cases h2 : n ≤ 100
    · rw [if_neg h1, if_pos h2, if_neg h1, if_pos h2]
      by_cases h3 : n % 5 = 0
      · simp only [h3, ne_eq, not_true_eq_false, if_false]
        omega
      · simp only [ne_eq, h3, not_false_eq_true, if_true]
        omega
    · simp [h1, h2]

/-- Claim C5: for every chunk size `k ≥ 1`, `_chunk_numbers` is an
exact partition — the chunks concatenate back to the input (order
preserved, nothing dropped or duplicated), the chunk lengths sum to
the input length, every chunk is nonempty of length at most `k`, and
every chunk except possibly the last has length exactly `k`. -/
theorem C5_chunk_partition (numbers : List String) (k : Nat) (hk : 1 ≤ k) :
    (chunk_numbers numbers k).flatten = numbers ∧
    ((chunk_numbers numbers k).map List.length).sum = numbers.length ∧
    (∀ c ∈ chunk_numbers numbers k, 0 < c.length ∧ c.length ≤ k) ∧
    (∀ c ∈ (chunk_numbers numbers k).dropLast, c.length = k) := by
  obtain ⟨hmem, hlast⟩ := chunk_numbers_shapes k hk numbers
  have hflat := chunk_numbers_flatten k hk numbers
  refine ⟨hflat, ?_, hmem, hlast⟩
  rw [← List.length_flatten, hflat]

/-- Witness for C5 at a concrete list and chunk size. -/
theorem C5_chunk_partition_witness :
    1 ≤ 2 ∧ (chunk_numbers ["a", "b", "c"] 2).flatten = ["a", "b", "c"] :=
  ⟨by decide, (C5_chunk_partition ["a", "b", "c"] 2 (by decide)).1⟩

/-- Claim C6: whenever `send_sms` returns a result, every recipient is
counted exactly once: `total_success + total_failed` equals the number
of recipients, for any mix of per-batch outcomes. -/
theorem C6_recipient_conservation (message : String) (numbers : List String)
    (sender : String) (transport : Nat → MessagePayload → HttpOutcome)
    (agg : Aggregated)
    (h : send_sms message numbers sender transport = Except.ok agg) :
    agg.total_success + agg.total_failed = numbers.length := by
  obtain ⟨hcs, agg0, ha, hagg⟩ :=
    send_sms_ok_inv message numbers sender transport agg h
  have hcnt := aggregateAll_counts _ initialAggregated agg0 ha
  have hlen :
      (((chunk_numbers numbers (chunkSizeFor numbers.length)).enum.map
          (fun p => send_chunk message p.2 sender (transport p.1))).map
        (fun r => (chunkOf r).length)).sum =
      ((chunk_numbers numbers (chunkSizeFor numbers.length)).map
        List.length).sum := by
    have hd := enumFrom_dispatch_lengths message sender transport
      (chunk_numbers numbers (chunkSizeFor numbers.length)) 0
    simpa [List.enum] using hd
  have hflat := chunk_numbers_flatten (chunkSizeFor numbers.length)
    (Nat.pos_of_ne_zero hcs) numbers
  have hsum :
      ((chunk_numbers numbers (chunkSizeFor numbers.length)).map
        List.length).sum = numbers.length := by
    rw [← List.length_flatten, hflat]
  subst hagg
  dsimp only
  rw [hcnt, hlen, hsum]
  simp [initialAggregated]

/-- Witness for C6: three recipients, one all-accepted batch. -/
theorem C6_recipient_conservation_witness :
    send_sms "hi" ["1", "2", "3"] "SND" okTransport = Except.ok allOkAgg ∧
    allOkAgg.total_success + allOkAgg.total_failed = 3 :=
  ⟨rfl, C6_recipient_conservation "hi" ["1", "2", "3"] "SND" okTransport
    allOkAgg rfl⟩

/-- Claim C7: whenever `send_sms` returns a result, its `success` flag
holds exactly when `total_failed` is zero. -/
theorem C7_success_iff_no_failures (message : String) (numbers : List String)
    (sender : String) (transport : Nat → MessagePayload → HttpOutcome)
    (agg : Aggregated)
    (h : send_sms message numbers sender transport = Except.ok agg) :
    agg.success = true ↔ agg.total_failed = 0 := by
  obtain ⟨-, agg0, -, hagg⟩ :=
    send_sms_ok_inv message numbers sender transport agg h
  subst hagg
  dsimp only
  simp

/-- Witness for C7: two recipients rejected by the gateway via
`err_text`, so `success` is false and `total_failed` is 2. -/
theorem C7_success_iff_no_failures_witness :
    send_sms "hi" ["1", "2"] "SND" errTextTransport = Except.ok rejectedAgg ∧
    (rejectedAgg.success = true ↔ rejectedAgg.total_failed = 0) :=
  ⟨rfl, C7_success_iff_no_failures "hi" ["1", "2"] "SND" errTextTransport
    rejectedAgg rfl⟩

/-- Claim C8 (counterexample): a 200 response whose first message
entry carries the err_text field with the empty string is rejected as
a whole batch, but its numbers are grouped under `"Unknown error"`,
not under the err_text value: the `or` fallback on line 116 treats the
falsy empty string like an absent error text. -/
theorem C8_counterexample :
    send_sms "m" ["1"] "SND" emptyErrTextTransport =
      Except.ok emptyErrTextAgg ∧
    emptyErrTextAgg.errors = [("Unknown error", ["1"])] ∧
    List.lookup "" emptyErrTextAgg.errors = none :=
  ⟨rfl, rfl, rfl⟩

/-- Claim C8 (amended): for a batch whose POST returns 200, if the
first message entry of the body carries an `err_text` field the whole
batch is rejected — counted in `total_failed` and grouped under the
`err_text` value when it is a non-empty string, and under
`"Unknown error"` when it is the empty string; otherwise the whole
batch is accepted, counted in `total_success`, with the body's
`job_id` appended when present. -/
theorem C8_amended_batch_granularity :
    (∀ (message : String) (numbers : List String) (sender : String)
        (post : MessagePayload → HttpOutcome) (body : ResponseBody),
        post { text := message, numbers := numbers, sender := sender } =
          HttpOutcome.response 200 body →
        send_chunk message numbers sender post = ChunkResult.ok numbers body) ∧
    (∀ (agg : Aggregated) (numbers : List String) (body : ResponseBody)
        (s : String) (rest : List MsgEntry),
        body.messages = some ({ err_text := some s } :: rest) →
        aggregateStep agg (ChunkResult.ok numbers body) =
          Except.ok { agg with
            total_failed := agg.total_failed + numbers.length,
            errors := errorsExtend agg.errors
              (if s = "" then "Unknown error" else s) numbers }) ∧
    (∀ (agg : Aggregated) (numbers : List String) (body : ResponseBody)
        (m0 : MsgEntry) (rest : List MsgEntry),
        body.messages = some (m0 :: rest) → m0.err_text = none →
        aggregateStep agg (ChunkResult.ok numbers body) =
          Except.ok { agg with
            total_success := agg.total_success + numbers.length,
            job_ids := agg.job_ids ++ body.job_id.toList }) := by
  refine ⟨?_, ?_, ?_⟩
  · intro message numbers sender post body hpost
    unfold send_chunk
    rw [hpost]
    rfl
  · intro agg numbers body s rest hmsg
    simp [aggregateStep, messagesFirst, hmsg, pyOr]
  · intro agg numbers body m0 rest hmsg hnone
    obtain ⟨msgs, jid, msg⟩ := body
    simp only at hmsg
    subst hmsg
    cases jid <;> simp [aggregateStep, messagesFirst, hnone, Option.toList]

/-- Witness for C8 (amended) at a concrete rejected batch. -/
theorem C8_amended_batch_granularity_witness :
    aggregateStep initialAggregated (ChunkResult.ok ["5"] badBody) =
      Except.ok { initialAggregated with
        total_failed :=
          initialAggregated.total_failed + (["5"] : List String).length,
        errors := errorsExtend initialAggregated.errors
          (if "bad" = "" then "Unknown error" else "bad") ["5"] } :=
  C8_amended_batch_granularity.2.1 initialAggregated ["5"] badBody "bad" [] rfl

/-- Claim C9 (code bug): `_send_chunk` does derive the failure reason
of a non-200 response from the body's `message` field, falling back to
`HTTP Error: <status>`, but the aggregation loop of `send_sms` then
evaluates `result["response"]` on the failure record, which has no
`response` key, so the call raises `KeyError` and the reason never
becomes a key of the errors mapping. -/
theorem C9_non200_rejected_but_aggregation_raises :
    send_chunk "m" ["1"] "SND"
        (fun _ => HttpOutcome.response 500
          { messages := none, job_id := none, message := none }) =
      ChunkResult.err ["1"] "HTTP Error: 500" ∧
    send_chunk "m" ["1"] "SND"
        (fun _ => HttpOutcome.response 500
          { messages := none, job_id := none,
            message := some "Insufficient credit" }) =
      ChunkResult.err ["1"] "Insufficient credit" ∧
    send_sms "m" ["1"] "SND" plain500Transport = Except.error PyError.keyError :=
  ⟨rfl, rfl, rfl⟩

/-- Claim C10: a 200 body without a `messages` key, or whose first
message entry is the empty object, makes the whole batch count as
accepted, and a job id is appended exactly when the top-level body has
a `job_id` key; nothing else in the body is examined. -/
theorem C10_default_accepted (agg : Aggregated) (numbers : List String)
    (jid msg : Option String) (rest : List MsgEntry) :
    aggregateStep agg
        (ChunkResult.ok numbers
          { messages := none, job_id := jid, message := msg }) =
      Except.ok { agg with
        total_success := agg.total_success + numbers.length,
        job_ids := agg.job_ids ++ jid.toList } ∧
    aggregateStep agg
        (ChunkResult.ok numbers
          { messages := some ({ err_text := none } :: rest), job_id := jid,
            message := msg }) =
      Except.ok { agg with
        total_success := agg.total_success + numbers.length,
        job_ids := agg.job_ids ++ jid.toList } := by
  cases jid <;>
    simp [aggregateStep, messagesFirst, Option.toList]

end SMS4Jawaly
